import Mathlib

/-!
Verification development for the format-generation pipeline of the
`Koptelev/news` repository.  Python strings are embedded as `List Char`
(one entry per Unicode code point, matching Python `len`/slicing) or as
Lean `String` where convenient; each definition is a shallow embedding of
the Python function named in its doc comment.
-/

set_option maxRecDepth 4096

/-! Section: Python string primitives. -/

/-- The ASCII whitespace characters recognised by Python's `str.strip()`
and by the regex class `\s` (`' '`, `'\t'`, `'\n'`, `'\r'`, `'\x0b'`,
`'\x0c'`); the inputs in this development are ASCII/BMP text, for which
this set coincides with Python's Unicode whitespace on the characters
actually used. -/
def isPyWs (c : Char) : Bool :=
  c == ' ' || c == '\t' || c == '\n' || c == '\r' || c == '\x0b' || c == '\x0c'

/-- Left half of Python `str.strip()`: drop leading whitespace. -/
def pyLTrim (s : List Char) : List Char := s.dropWhile isPyWs

/-- Right half of Python `str.strip()`: drop trailing whitespace. -/
def pyRTrim (s : List Char) : List Char := (s.reverse.dropWhile isPyWs).reverse

/-- Python `str.strip()` with no arguments: remove leading and trailing
whitespace. -/
def pyStrip (s : List Char) : List Char := pyRTrim (pyLTrim s)

/-- Python `str.strip()` on the `String` type. -/
def pyStripS (s : String) : String := ⟨pyStrip s.data⟩

/-! Section: the regex substitution collapsing newline runs, from
`src/generators/formats.py` (used by `TelegramGenerator.post_process` and
`NewsletterGenerator.post_process`).

The regex replaces every maximal run of three or more consecutive
newlines by exactly two newlines; equivalently, it keeps the first two
newlines of every run and drops the rest.  `collapseGo` walks the string
keeping `k`, the number of newlines seen immediately before the current
position. -/

def collapseGo : List Char → Nat → List Char
  | [], _ => []
  | c :: rest, k =>
    if c = '\n' then
      if 2 ≤ k then collapseGo rest (k + 1)
      else c :: collapseGo rest (k + 1)
    else c :: collapseGo rest 0

/-- Embedding of `re.sub(r"\n{3,}", "\n\n", s)`. -/
def collapseNL (s : List Char) : List Char := collapseGo s 0

/-- Whether the text contains a run of three (or more) consecutive
newlines, i.e. whether `re.sub(r"\n{3,}", ...)` has anything to do. -/
def hasTripleNL : List Char → Bool
  | a :: b :: c :: rest =>
    (a == '\n' && b == '\n' && c == '\n') || hasTripleNL (b :: c :: rest)
  | _ => false

/-! Section: the regex split on sentence boundaries used by
`TelegramGenerator.post_process` (`src/generators/formats.py`). -/

/-- The sentence-ending punctuation class `[.!?]`. -/
def isSentPunct (c : Char) : Bool := c == '.' || c == '!' || c == '?'

/-- Whether the list starts with a `\s` character (so that `[.!?]\s+` can
match at the previous position). -/
def headIsWs : List Char → Bool
  | [] => false
  | c :: _ => isPyWs c

/-- Worker for `re.split(r"[.!?]\s+", s)`: scanning left to right, each
non-overlapping match of a punctuation character followed by a maximal
(greedy `\s+`) run of whitespace ends the current segment; the match
itself is removed.  `fuel` bounds the recursion; every step consumes at
least one character and exactly one unit of fuel, so `fuel = s.length`
(as used in `splitSent`) never runs out, and the fuel-exhausted clause
(returning the remaining text as one segment) is only reachable with
`s = []`, where it agrees with the `[]` clause. -/
def splitSentGo : Nat → List Char → List Char → List (List Char)
  | 0, s, acc => [acc.reverse ++ s]
  | Nat.succ fuel, s, acc =>
    match s with
    | [] => [acc.reverse]
    | c :: rest =>
      if isSentPunct c && headIsWs rest then
        acc.reverse :: splitSentGo fuel (rest.dropWhile isPyWs) []
      else splitSentGo fuel rest (c :: acc)

/-- Embedding of `re.split(r"[.!?]\s+", s)`. -/
def splitSent (s : List Char) : List (List Char) := splitSentGo s.length s []

/-- The sentence-reassembly loop of `TelegramGenerator.post_process`:
`result = ""`, then for each sentence, if `len(result + sentence) <= 300`
do `result += sentence + ". "`, otherwise `break`; returns `result`. -/
def greedyJoin : List (List Char) → List Char → List Char
  | [], result => result
  | s :: rest, result =>
    if (result ++ s).length ≤ 300 then greedyJoin rest (result ++ s ++ ['.', ' '])
    else result

/-! Section: per-format post-processing (`src/generators/formats.py`) -/

/-- Embedding of `TelegramGenerator.post_process`: collapse 3+ newlines to a blank
line, strip, and if the result exceeds 300 characters, split on sentence
boundaries, greedily reassemble while the running length stays ≤ 300,
then `result.strip()[:300]`.  (The Python local `content` after the first
two statements is `pyStrip (collapseNL raw)` here, repeated inline.) -/
def telegram_post_process (raw : List Char) : List Char :=
  if (pyStrip (collapseNL raw)).length ≤ 300 then pyStrip (collapseNL raw)
  else (pyStrip (greedyJoin (splitSent (pyStrip (collapseNL raw))) [])).take 300

/-- Embedding of `EmailGenerator.post_process`: every branch of the Python function
(`"ТЕМА:"`/`"Тема:"` present, multi-line, or fall-through) returns
`content.strip()`, so the function is the trim. -/
def email_post_process (content : List Char) : List Char := pyStrip content

/-- Embedding of `OfficialLetterGenerator.post_process`: logs a warning for each
missing placeholder marker but never modifies or rejects the content;
returns `content.strip()`. -/
def official_letter_post_process (content : List Char) : List Char := pyStrip content

/-- Embedding of `NewsletterGenerator.post_process`: collapse 3+ newlines, strip. -/
def newsletter_post_process (content : List Char) : List Char :=
  pyStrip (collapseNL content)

/-- Embedding of `BaseGenerator.post_process` (the default for any generator that does
not override it): `content.strip()`. -/
def base_post_process (content : List Char) : List Char := pyStrip content

/-! Section: format strategies and the generator registry
(`src/generators/formats.py`, `src/generators/base.py`) -/

/-- The per-format generation policy carried by a generator class:
`get_temperature`, `get_max_tokens`, `post_process`. -/
structure GeneratorStrategy where
  temperature : ℚ
  maxTokens : Option Nat
  postProcess : List Char → List Char

/-- Strategy of `TelegramGenerator`: temperature 0.8, max 200 tokens. -/
def telegramStrategy : GeneratorStrategy :=
  { temperature := 0.8, maxTokens := some 200, postProcess := telegram_post_process }

/-- Strategy of `EmailGenerator`: temperature 0.7, max 300 tokens. -/
def emailStrategy : GeneratorStrategy :=
  { temperature := 0.7, maxTokens := some 300, postProcess := email_post_process }

/-- Strategy of `OfficialLetterGenerator`: temperature 0.5, max 600 tokens. -/
def officialLetterStrategy : GeneratorStrategy :=
  { temperature := 0.5, maxTokens := some 600, postProcess := official_letter_post_process }

/-- Strategy of `NewsletterGenerator`: temperature 0.7, max 500 tokens. -/
def newsletterStrategy : GeneratorStrategy :=
  { temperature := 0.7, maxTokens := some 500, postProcess := newsletter_post_process }

/-- The `BaseGenerator` defaults (`src/generators/base.py` lines 71–99):
temperature 0.7, no token cap, trim-only post-processing.  These defaults
apply to a subclass that overrides nothing; `get_generator` never
instantiates them for an unknown format name. -/
def defaultStrategy : GeneratorStrategy :=
  { temperature := 0.7, maxTokens := none, postProcess := base_post_process }

/-- The `GENERATORS` registry dict of `src/generators/formats.py`,
in source order. -/
def GENERATORS : List (String × GeneratorStrategy) :=
  [("telegram", telegramStrategy),
   ("email", emailStrategy),
   ("official_letter", officialLetterStrategy),
   ("newsletter", newsletterStrategy)]

/-- Embedding of `get_generator(format_name)` (`src/generators/formats.py` lines
133–151): raises `ValueError` listing the available formats when
`format_name not in GENERATORS`, otherwise instantiates the registered
generator class. -/
def get_generator (format_name : String) : Except String GeneratorStrategy :=
  match GENERATORS.lookup format_name with
  | some g => .ok g
  | none =>
    .error ("Формат \x27" ++ format_name ++ "\x27 не поддерживается. Доступные: "
      ++ String.intercalate (", ") (GENERATORS.map Prod.fst))

/-! Section: multi-format batch loop (`src/main.py` `generate_content`,
`src/cli.py` `generate`)

Both callers run the same per-format loop: `try` resolve the generator
and generate; on success `results[fmt] = content`; on any exception
`errors[fmt] = str(e)` and `results[fmt] = None`.  The per-format
pipeline (generator resolution, template fetch, substitution, backend
call, post-processing) is abstracted as `gen : String → Except String
String`, the content or the raised exception's message for each format.
Python dicts are embedded as ordered association lists with
dict-assignment semantics (`dictSet`). -/

/-- Python dict assignment `m[k] = v`: replace the value in place if the
key is present, otherwise append the new entry at the end. -/
def dictSet {α : Type} : List (String × α) → String → α → List (String × α)
  | [], k, v => [(k, v)]
  | (k', v') :: rest, k, v =>
    if k' = k then (k', v) :: rest else (k', v') :: dictSet rest k v

/-- The shared per-format loop of `generate_content` (`src/main.py`
lines 77–91) and `generate` (`src/cli.py` lines 75–96): fold over the
requested formats accumulating the `results` and `errors` dicts. -/
def runBatch (gen : String → Except String String) (formats : List String) :
    List (String × Option String) × List (String × String) :=
  formats.foldl
    (fun acc fmt =>
      match gen fmt with
      | .ok content => (dictSet acc.1 fmt (some content), acc.2)
      | .error e => (dictSet acc.1 fmt none, dictSet acc.2 fmt e))
    ([], [])

/-- Embedding of `generate_content` (`src/main.py` lines 77–95): run the batch loop,
then raise `HTTPException(500)` if `not results` or every value in
`results` is `None`; otherwise return the aggregate normally. -/
def generate_content (gen : String → Except String String)
    (formats : List String) :
    Except String (List (String × Option String) × List (String × String)) :=
  let rb := runBatch gen formats
  if rb.1.isEmpty || rb.1.all (fun q => q.2.isNone) then
    .error ("Не удалось сгенерировать ни один формат")
  else .ok rb

/-! Section: template store (`src/config/prompt_loader.py`)

`PromptLoader` holds a lazily cached YAML-backed mapping from format name
to a `{system, user}` pair.  The backing file is embedded as
`disk : Except String PromptMap` — `.error` models a missing or malformed
file (`FileNotFoundError` / `yaml.YAMLError` on read).  The YAML
dump/load round-trip is faithful for the mappings involved, so the file
is modelled by the mapping it parses to.  Write failures are injected
through a `writeErr : Option String` parameter (`none` = the `open`/dump
succeeds, `some e` = it raises `e`); each method returns its
result/raised error together with the loader state after the call. -/

/-- One prompt entry: the `{"system": ..., "user": ...}` dict stored per
format name. -/
structure PromptTemplate where
  system : String
  user : String
  deriving DecidableEq

/-- The mapping held in `prompts.yaml`, in document order. -/
abbrev PromptMap := List (String × PromptTemplate)

/-- The mutable fields of a `PromptLoader`: the `_prompts` cache and the
backing file's current contents. -/
structure LoaderState where
  cache : Option PromptMap
  disk : Except String PromptMap

/-- Python `del prompts[name]` on a dict with unique keys. -/
def dictRemove (m : PromptMap) (k : String) : PromptMap :=
  m.filter (fun q => q.1 != k)

namespace PromptLoader

/-- Embedding of `PromptLoader.load` (lines 28–52): return the cache if it is set,
otherwise read and parse the backing file, cache the result, and return
it; a missing or malformed file raises. -/
def load (st : LoaderState) : Except String PromptMap × LoaderState :=
  match st.cache with
  | some p => (.ok p, st)
  | none =>
    match st.disk with
    | .ok p => (.ok p, { st with cache := some p })
    | .error e => (.error e, st)

/-- Embedding of `PromptLoader.get_prompt` (lines 54–73): load, then return the entry
for `format_name`, or raise `KeyError` whose message lists the currently
known format names. -/
def get_prompt (st : LoaderState) (format_name : String) :
    Except String PromptTemplate × LoaderState :=
  match load st with
  | (.error e, st1) => (.error e, st1)
  | (.ok p, st1) =>
    match p.lookup format_name with
    | some t => (.ok t, st1)
    | none =>
      (.error ("Формат \x27" ++ format_name ++ "\x27 не найден. Доступные форматы: "
        ++ String.intercalate (", ") (p.map Prod.fst)), st1)

/-- Embedding of `PromptLoader.list_formats` (lines 75–83): the known format names in
document order. -/
def list_formats (st : LoaderState) : Except String (List String) × LoaderState :=
  match load st with
  | (.error e, st1) => (.error e, st1)
  | (.ok p, st1) => (.ok (p.map Prod.fst), st1)

/-- Embedding of `PromptLoader.save_prompt` (lines 85–110): load, set
`prompts[format_name]`, reset the cache to `None`, then dump the full
mapping back to the file; a dump failure (`writeErr = some e`) raises `e`
leaving the cache reset and the file unchanged. -/
def save_prompt (st : LoaderState) (format_name system_prompt user_prompt : String)
    (writeErr : Option String) : Except String Unit × LoaderState :=
  match load st with
  | (.error e, st1) => (.error e, st1)
  | (.ok p, st1) =>
    let p2 := dictSet p format_name ⟨system_prompt, user_prompt⟩
    let st2 := { st1 with cache := none }
    match writeErr with
    | none => (.ok (), { st2 with disk := .ok p2 })
    | some e => (.error e, st2)

/-- Embedding of `PromptLoader.delete_prompt` (lines 112–132): load; if the name is
present, delete it, reset the cache, and dump the mapping (a dump failure
raises leaving the cache reset); otherwise raise
`KeyError("Формат '...' не найден")`. -/
def delete_prompt (st : LoaderState) (format_name : String)
    (writeErr : Option String) : Except String Unit × LoaderState :=
  match load st with
  | (.error e, st1) => (.error e, st1)
  | (.ok p, st1) =>
    if (p.lookup format_name).isSome then
      let p2 := dictRemove p format_name
      let st2 := { st1 with cache := none }
      match writeErr with
      | none => (.ok (), { st2 with disk := .ok p2 })
      | some e => (.error e, st2)
    else (.error ("Формат \x27" ++ format_name ++ "\x27 не найден"), st1)

end PromptLoader

/-! Section: AI provider selection and backends (`src/ai/provider.py`) -/

/-- Embedding of `AISettings`: the configuration fields read by the providers. -/
structure AISettings where
  ai_provider : String
  openai_api_key : Option String
  openai_base_url : String
  openai_model : String
  openrouter_api_key : Option String
  openrouter_base_url : String
  openrouter_model : String
  ollama_base_url : String
  ollama_model : String

/-- Python `str.lower()` (ASCII range, which covers the provider-kind
strings involved). -/
def pyLower (s : String) : String := ⟨s.data.map Char.toLower⟩

/-- Python truthiness of an optional credential string: `None` and the
empty string are falsy (`if not self.settings.openai_api_key`). -/
def pyTruthy : Option String → Bool
  | none => false
  | some s => !s.isEmpty

/-- A network-capable client object constructed by a provider's
`__init__`: the `OpenAI(...)` SDK client or the `httpx.Client(...)`.
Constructing one of these is the only acquisition of a network resource
in `src/ai/provider.py`; no request is sent at construction time, and no
request can be sent without one. -/
inductive NetClient where
  | openaiClient (api_key base_url : String)
  | httpxClient (base_url : String)
  deriving DecidableEq

/-- A constructed provider instance (the tag records the concrete
class). -/
inductive AIProviderInst where
  | openai (s : AISettings)
  | openrouter (s : AISettings)
  | ollama (s : AISettings)

/-- Embedding of `OpenAIProvider.__init__` (lines 61–88): raise `ValueError` when the
API key is unset or empty — before constructing any client — otherwise
construct the SDK client. -/
def OpenAIProvider_init (s : AISettings) :
    Except String AIProviderInst × List NetClient :=
  if pyTruthy s.openai_api_key then
    (.ok (.openai s),
     [.openaiClient (s.openai_api_key.getD ("")) s.openai_base_url])
  else
    (.error ("OPENAI_API_KEY не установлен. Установите переменную окружения."), [])

/-- Embedding of `OpenRouterProvider.__init__` (lines 117–145): same shape with the
OpenRouter credential and endpoint. -/
def OpenRouterProvider_init (s : AISettings) :
    Except String AIProviderInst × List NetClient :=
  if pyTruthy s.openrouter_api_key then
    (.ok (.openrouter s),
     [.openaiClient (s.openrouter_api_key.getD ("")) s.openrouter_base_url])
  else
    (.error ("OPENROUTER_API_KEY не установлен. Установите переменную окружения."), [])

/-- Embedding of `OllamaProvider.__init__` (lines 174–195): no credential check;
constructs the `httpx.Client`. -/
def OllamaProvider_init (s : AISettings) :
    Except String AIProviderInst × List NetClient :=
  (.ok (.ollama s), [.httpxClient s.ollama_base_url])

/-- Embedding of `get_ai_provider` (lines 229–255): dispatch on
`settings.ai_provider.lower()`; an unknown kind raises `ValueError`
naming the supported kinds, with no provider constructed and no client
(hence no network resource) touched. -/
def get_ai_provider (s : AISettings) :
    Except String AIProviderInst × List NetClient :=
  if pyLower s.ai_provider = "openai" then OpenAIProvider_init s
  else if pyLower s.ai_provider = "openrouter" then OpenRouterProvider_init s
  else if pyLower s.ai_provider = "ollama" then OllamaProvider_init s
  else
    (.error ("Неподдерживаемый провайдер: " ++ pyLower s.ai_provider
      ++ ". Доступные: openai, openrouter, ollama"), [])

/-! Section: backend response handling for generate, from (`src/ai/provider.py`)

The transport layer is abstracted as an `Except String _` argument: the
already-received response, or the exception raised by the SDK/HTTP call
(connection failure, SDK-reported non-success status, JSON parse error). -/

/-- Embedding of `message.content` of one element of `response.choices` in the
chat-completions envelope; `none` embeds a missing/null content field. -/
structure ChatChoice where
  content : Option String
  deriving DecidableEq

/-- The chat-completions response envelope used by the OpenAI and
OpenRouter providers. -/
structure ChatCompletionResponse where
  choices : List ChatChoice
  deriving DecidableEq

/-- The Ollama `/api/generate` HTTP response: the status check outcome
(`raise_for_status`) and the parsed JSON object's string fields. -/
structure OllamaResponse where
  statusOk : Bool
  fields : List (String × String)
  deriving DecidableEq

/-- Embedding of `OpenAIProvider.generate` (lines 90–111) response handling:
`response.choices[0].message.content.strip()` — an empty `choices` list
raises `IndexError`, a missing/`None` content raises `AttributeError`
(both re-raised by the `except` clause), otherwise the trimmed content is
returned. -/
def openai_generate (resp : Except String ChatCompletionResponse) :
    Except String String :=
  match resp with
  | .error e => .error e
  | .ok r =>
    match r.choices.head? with
    | none => .error ("IndexError: list index out of range")
    | some choice =>
      match choice.content with
      | none => .error ("AttributeError: \x27NoneType\x27 object has no attribute \x27strip\x27")
      | some c => .ok (pyStripS c)

/-- Embedding of `OpenRouterProvider.generate` (lines 147–168): identical response
handling against the OpenRouter endpoint. -/
def openrouter_generate (resp : Except String ChatCompletionResponse) :
    Except String String :=
  match resp with
  | .error e => .error e
  | .ok r =>
    match r.choices.head? with
    | none => .error ("IndexError: list index out of range")
    | some choice =>
      match choice.content with
      | none => .error ("AttributeError: \x27NoneType\x27 object has no attribute \x27strip\x27")
      | some c => .ok (pyStripS c)

/-- Embedding of `OllamaProvider.generate` (lines 197–226) response handling:
`response.raise_for_status()` raises on a non-success status; then
`result.get("response", "").strip()` — a missing `response` field is
silently replaced by the empty string, not an error. -/
def ollama_generate (resp : Except String OllamaResponse) :
    Except String String :=
  match resp with
  | .error e => .error e
  | .ok r =>
    if r.statusOk then .ok (pyStripS ((r.fields.lookup ("response")).getD ("")))
    else .error ("HTTPStatusError")

/-! Section: helper lemmas about the string primitives. -/

theorem dropWhile_self_idem (p : Char → Bool) (l : List Char) :
    (l.dropWhile p).dropWhile p = l.dropWhile p := by
  induction l with
  | nil => rfl
  | cons a l ih =>
    by_cases h : p a
    · simp [List.dropWhile_cons, h, ih]
    · simp [List.dropWhile_cons, h]

theorem dropWhile_append_last (p : Char → Bool) (c : Char) (hc : p c = false)
    (l : List Char) : ∃ z, (l ++ [c]).dropWhile p = z ++ [c] := by
  induction l with
  | nil => exact ⟨[], by simp [List.dropWhile_cons, hc]⟩
  | cons a l ih =>
    by_cases h : p a
    · obtain ⟨z, hz⟩ := ih
      exact ⟨z, by simp [List.dropWhile_cons, h, hz]⟩
    · exact ⟨a :: l, by simp [List.dropWhile_cons, h]⟩

theorem head_dropWhile_false (p : Char → Bool) (l : List Char) (c : Char)
    (t : List Char) (h : l.dropWhile p = c :: t) : p c = false := by
  induction l with
  | nil => simp at h
  | cons a l ih =>
    by_cases ha : p a
    · rw [List.dropWhile_cons, if_pos ha] at h
      exact ih h
    · rw [List.dropWhile_cons, if_neg ha] at h
      cases h
      exact Bool.of_not_eq_true ha

theorem pyRTrim_idem (s : List Char) : pyRTrim (pyRTrim s) = pyRTrim s := by
  unfold pyRTrim
  rw [List.reverse_reverse, dropWhile_self_idem]

theorem pyLTrim_pyRTrim_of_head (c : Char) (t : List Char) (hc : isPyWs c = false) :
    pyLTrim (pyRTrim (c :: t)) = pyRTrim (c :: t) := by
  unfold pyRTrim pyLTrim
  obtain ⟨z, hz⟩ := dropWhile_append_last isPyWs c hc t.reverse
  rw [List.reverse_cons, hz, List.reverse_append]
  simp [List.dropWhile_cons, hc]

theorem pyStrip_idem (s : List Char) : pyStrip (pyStrip s) = pyStrip s := by
  unfold pyStrip
  cases hy : pyLTrim s with
  | nil => simp [pyRTrim, pyLTrim]
  | cons c t =>
    have hc : isPyWs c = false := head_dropWhile_false isPyWs s c t hy
    rw [pyLTrim_pyRTrim_of_head c t hc, pyRTrim_idem]

theorem length_dropWhile_le_self (p : Char → Bool) (l : List Char) :
    (l.dropWhile p).length ≤ l.length := by
  induction l with
  | nil => simp
  | cons a l ih =>
    by_cases h : p a
    · rw [List.dropWhile_cons, if_pos h]
      exact Nat.le_succ_of_le ih
    · rw [List.dropWhile_cons, if_neg h]

theorem pyStrip_length_le (s : List Char) : (pyStrip s).length ≤ s.length := by
  unfold pyStrip pyRTrim pyLTrim
  calc ((s.dropWhile isPyWs).reverse.dropWhile isPyWs).reverse.length
      = ((s.dropWhile isPyWs).reverse.dropWhile isPyWs).length := List.length_reverse _
    _ ≤ (s.dropWhile isPyWs).reverse.length := length_dropWhile_le_self isPyWs _
    _ = (s.dropWhile isPyWs).length := List.length_reverse _
    _ ≤ s.length := length_dropWhile_le_self isPyWs s

theorem pyStripS_idem (s : String) : pyStripS (pyStripS s) = pyStripS s := by
  unfold pyStripS
  exact congrArg String.mk (pyStrip_idem s.data)

theorem hasTripleNL_cons (a : Char) (l : List Char)
    (h : hasTripleNL (a :: l) = false) : hasTripleNL l = false := by
  match l with
  | [] => rfl
  | [b] => rfl
  | b :: c :: r =>
    rw [hasTripleNL] at h
    exact (Bool.or_eq_false_iff.mp h).2

theorem hasTripleNL_append (xs l : List Char)
    (h : hasTripleNL (xs ++ l) = false) : hasTripleNL l = false := by
  induction xs with
  | nil => simpa using h
  | cons a xs ih => exact ih (hasTripleNL_cons a _ (by simpa using h))

theorem collapseGo_eq_self (s : List Char) : ∀ k, k ≤ 2 →
    hasTripleNL (List.replicate k '\n' ++ s) = false → collapseGo s k = s := by
  induction s with
  | nil => intro k _ _; rfl
  | cons c rest ih =>
    intro k hk h
    by_cases hc : c = '\n'
    · subst hc
      have hrepl : List.replicate k '\n' ++ '\n' :: rest
          = List.replicate (k + 1) '\n' ++ rest := by
        rw [List.replicate_succ']
        simp
      have hk2 : ¬ 2 ≤ k := by
        intro h2
        have hk2eq : k = 2 := le_antisymm hk h2
        subst hk2eq
        simp [List.replicate, hasTripleNL] at h
      rw [collapseGo, if_pos rfl, if_neg hk2]
      congr 1
      exact ih (k + 1) (by omega) (hrepl ▸ h)
    · rw [collapseGo, if_neg hc]
      congr 1
      apply ih 0 (by omega)
      have h2 : hasTripleNL ((List.replicate k '\n' ++ [c]) ++ rest) = false := by
        simpa [List.append_assoc] using h
      simpa using hasTripleNL_append _ _ h2

theorem collapseNL_eq_self (s : List Char) (h : hasTripleNL s = false) :
    collapseNL s = s := by
  unfold collapseNL
  exact collapseGo_eq_self s 0 (by omega) (by simpa using h)

theorem splitSentGo_headI_length (fuel : Nat) :
    ∀ s acc : List Char,
      ((splitSentGo fuel s acc).headI).length ≤ acc.length + s.length := by
  induction fuel with
  | zero =>
    intro s acc
    simp [splitSentGo, List.headI]
  | succ fuel ih =>
    intro s acc
    match s with
    | [] => simp [splitSentGo, List.headI]
    | c :: rest =>
      rw [splitSentGo]
      by_cases hm : (isSentPunct c && headIsWs rest) = true
      · rw [if_pos hm]
        simp [List.headI]
      · rw [if_neg hm]
        have := ih rest (c :: acc)
        simp only [List.length_cons] at this ⊢
        omega

theorem splitSent_headI_length (s : List Char) :
    ((splitSent s).headI).length ≤ s.length := by
  simpa using splitSentGo_headI_length s.length s []

/-! Section: helper lemmas about the dict embedding. -/

theorem dictSet_lookup_self {α : Type} (m : List (String × α)) (k : String) (v : α) :
    (dictSet m k v).lookup k = some v := by
  induction m with
  | nil => simp [dictSet, List.lookup]
  | cons a m ih =>
    obtain ⟨q, w⟩ := a
    by_cases h : q = k
    · subst h
      simp [dictSet, List.lookup]
    · have hk : (k == q) = false := by simpa using Ne.symm h
      simp [dictSet, h, List.lookup, hk, ih]

theorem dictSet_of_absent {α : Type} (m : List (String × α)) (k : String) (v : α)
    (h : m.lookup k = none) : dictSet m k v = m ++ [(k, v)] := by
  induction m with
  | nil => rfl
  | cons a m ih =>
    obtain ⟨q, w⟩ := a
    by_cases hq : q = k
    · subst hq
      simp [List.lookup] at h
    · simp only [List.lookup, List.cons_append] at h ⊢
      rw [dictSet, if_neg hq]
      have hk : (k == q) = false := by simpa using Ne.symm hq
      rw [hk] at h
      simp [ih h]

theorem dictRemove_absent (m : PromptMap) (k : String)
    (h : m.lookup k = none) : dictRemove m k = m := by
  induction m with
  | nil => rfl
  | cons a m ih =>
    obtain ⟨q, w⟩ := a
    by_cases hq : q = k
    · subst hq
      simp [List.lookup] at h
    · have hk : (k == q) = false := by simpa using Ne.symm hq
      rw [List.lookup] at h
      rw [hk] at h
      simp only [dictRemove, List.filter] at ih ⊢
      have hq2 : (q != k) = true := by simpa using hq
      rw [hq2]
      simp [ih h]

theorem dictRemove_append_self (m : PromptMap) (k : String) (v : PromptTemplate)
    (h : m.lookup k = none) : dictRemove (m ++ [(k, v)]) k = m := by
  unfold dictRemove
  rw [List.filter_append]
  have h1 : List.filter (fun q => q.1 != k) m = m := dictRemove_absent m k h
  have h2 : List.filter (fun q => q.1 != k) [(k, v)] = [] := by simp
  rw [h1, h2, List.append_nil]

/-! Section: helper lemmas about the template store state machine. -/

theorem load_ok_anatomy (st : LoaderState) (p : PromptMap)
    (h : (PromptLoader.load st).1 = .ok p) :
    PromptLoader.load st = (.ok p, ⟨some p, st.disk⟩) := by
  obtain ⟨cache, disk⟩ := st
  cases cache with
  | some q =>
    have hq : q = p := by simpa [PromptLoader.load] using h
    subst hq
    rfl
  | none =>
    cases disk with
    | ok d =>
      have hd : d = p := by simpa [PromptLoader.load] using h
      subst hd
      rfl
    | error e => simp [PromptLoader.load] at h

theorem save_prompt_ok (st : LoaderState) (p : PromptMap)
    (format_name system_prompt user_prompt : String)
    (h : (PromptLoader.load st).1 = .ok p) :
    PromptLoader.save_prompt st format_name system_prompt user_prompt none =
      (.ok (), ⟨none, .ok (dictSet p format_name ⟨system_prompt, user_prompt⟩)⟩) := by
  unfold PromptLoader.save_prompt
  rw [load_ok_anatomy st p h]

/-! Section: claim C1 — multi-format batch with one failing format. -/

/-- C1 (amended): in a two-format batch where the backend pipeline
succeeds for the first format and fails for the second, `generate_content`
returns normally (no exception escapes); the successful format's entry in
`results` holds its content, the failed format's `results` entry is
present with the null value `None` (not absent), and `errors` contains
exactly the failed format's key. -/
theorem batch_one_failure (gen : String → Except String String)
    (f1 f2 c e : String) (hne : f1 ≠ f2)
    (h1 : gen f1 = .ok c) (h2 : gen f2 = .error e) :
    generate_content gen [f1, f2] = .ok ([(f1, some c), (f2, none)], [(f2, e)]) := by
  have hrb : runBatch gen [f1, f2] = ([(f1, some c), (f2, none)], [(f2, e)]) := by
    simp [runBatch, h1, h2, dictSet, hne]
  simp [generate_content, hrb]

/-- A backend stub that fails only for the format named email. -/
def exGen : String → Except String String :=
  fun f =>
    if f = "email" then .error ("Ошибка при генерации через OpenAI")
    else .ok ("Пост готов")

/-- C1 (counterexample): in the claim's own scenario — formats
telegram and email with the backend failing only for email — the
failed format's `results` entry is not absent: the key email is
present, mapped to `None`. -/
theorem batch_failed_entry_present :
    generate_content exGen ["telegram", "email"] =
      .ok ([("telegram", some ("Пост готов")), ("email", none)],
           [("email", "Ошибка при генерации через OpenAI")])
    ∧ List.lookup ("email")
        [("telegram", some ("Пост готов")), ("email", (none : Option String))]
      = some none := by
  exact ⟨rfl, rfl⟩

/-- C1 (witness): the amended theorem applied to the concrete stub. -/
theorem batch_one_failure_witness :
    generate_content exGen ["telegram", "email"] =
      .ok ([("telegram", some ("Пост готов")), ("email", none)],
           [("email", "Ошибка при генерации через OpenAI")]) :=
  batch_one_failure exGen ("telegram") ("email") ("Пост готов")
    ("Ошибка при генерации через OpenAI") (by decide) rfl rfl

/-! Section: claim C2 — telegram ceiling on long raw output. -/

/-- C2 (amended): for every raw backend output longer than 300
characters, the telegram post-processing returns a string of length at
most 300 — built by greedily reassembling sentence segments joined with
a period and a space, then truncating to 300 — but when no sentence
boundary exists within the budget the greedy loop stops at once and the
output is the empty string, not the first 300 characters of the input. -/
theorem telegram_output_length_le (s : List Char) (h : 300 < s.length) :
    (telegram_post_process s).length ≤ 300 := by
  unfold telegram_post_process
  by_cases hc : (pyStrip (collapseNL s)).length ≤ 300
  · rw [if_pos hc]
    exact hc
  · rw [if_neg hc]
    rw [List.length_take]
    omega

/-- C2 (witness): the length bound at a concrete 301-character input. -/
theorem telegram_output_length_le_witness :
    300 < (List.replicate 301 'a').length
    ∧ (telegram_post_process (List.replicate 301 'a')).length ≤ 300 :=
  ⟨by decide, telegram_output_length_le _ (by decide)⟩

/-- C2 (counterexample): a 350-character raw string with no sentence
punctuation anywhere is post-processed to the empty string, not to its
first 300 characters as the claim states. -/
theorem telegram_no_boundary_gives_empty :
    telegram_post_process (List.replicate 350 'a') = []
    ∧ (List.replicate 350 'a').take 300 = List.replicate 300 'a'
    ∧ telegram_post_process (List.replicate 350 'a')
        ≠ (List.replicate 350 'a').take 300 := by
  refine ⟨by decide, by decide, by decide⟩

/-! Section: claim C3 — custom format names and the strategy registry. -/

/-- C3 (amended): for every format name that is not a key of the
built-in `GENERATORS` registry, `get_generator` raises `ValueError`
naming the available built-in formats; the generation pipeline does not
fall back to the `BaseGenerator` default strategy (`defaultStrategy`:
temperature 0.7, no cap, trim-only) for unknown names. -/
theorem custom_format_rejected (format_name : String)
    (h : GENERATORS.lookup format_name = none) :
    get_generator format_name =
      .error ("Формат \x27" ++ format_name ++ "\x27 не поддерживается. Доступные: "
        ++ String.intercalate (", ") (GENERATORS.map Prod.fst)) := by
  unfold get_generator
  rw [h]

/-- C3 (witness): the amended theorem at the custom name blog. -/
theorem custom_format_rejected_witness :
    get_generator ("blog") =
      .error ("Формат \x27" ++ "blog" ++ "\x27 не поддерживается. Доступные: "
        ++ String.intercalate (", ") (GENERATORS.map Prod.fst)) :=
  custom_format_rejected ("blog") rfl

/-- C3 (counterexample): the custom format name press_release — one of
the names the HTTP surface itself offers by default — is rejected with
`ValueError` instead of resolving the default strategy and generating. -/
theorem custom_format_error_concrete :
    get_generator ("press_release") =
      .error ("Формат \x27press_release\x27 не поддерживается. Доступные: telegram, email, official_letter, newsletter") := by
  rfl

/-! Section: claim C4 — telegram post-processing on short raw output. -/

/-- C4 (confirmed): for every raw backend output of at most 300
characters with no run of three or more consecutive newlines, the
telegram post-processing returns exactly the whitespace-trimmed,
newline-collapsed input — which, absent triple-newline runs, is just the
trimmed input — unchanged by the truncation branch. -/
theorem telegram_short_unchanged (s : List Char) (h1 : s.length ≤ 300)
    (h2 : hasTripleNL s = false) :
    telegram_post_process s = pyStrip (collapseNL s)
    ∧ telegram_post_process s = pyStrip s := by
  have hcol : collapseNL s = s := collapseNL_eq_self s h2
  have hlen : (pyStrip (collapseNL s)).length ≤ 300 := by
    rw [hcol]
    exact le_trans (pyStrip_length_le s) h1
  have hmain : telegram_post_process s = pyStrip (collapseNL s) := by
    unfold telegram_post_process
    rw [if_pos hlen]
  exact ⟨hmain, by rw [hmain, hcol]⟩

/-- A short raw output with surrounding whitespace and a double (not
triple) newline, used as the C4 witness input. -/
def exShort : List Char := "  Пост\n\nготов  ".data

/-- C4 (witness): the theorem applied to a concrete short input. -/
theorem telegram_short_unchanged_witness :
    (exShort.length ≤ 300)
    ∧ hasTripleNL exShort = false
    ∧ telegram_post_process exShort = pyStrip exShort :=
  ⟨by decide, by decide, (telegram_short_unchanged exShort (by decide) (by decide)).2⟩

/-! Section: claim C5 — template store put/get round-trip. -/

/-- C5 (confirmed): for every loadable store state, every format name
and every pair of system/user instruction strings, `save_prompt` with a
successful persistence followed immediately by `get_prompt` of the same
name returns exactly the stored system/user pair. -/
theorem put_get_roundtrip (st : LoaderState) (p : PromptMap)
    (format_name system_prompt user_prompt : String)
    (h : (PromptLoader.load st).1 = .ok p) :
    (PromptLoader.save_prompt st format_name system_prompt user_prompt none).1 = .ok ()
    ∧ (PromptLoader.get_prompt
        (PromptLoader.save_prompt st format_name system_prompt user_prompt none).2
        format_name).1 = .ok ⟨system_prompt, user_prompt⟩ := by
  rw [save_prompt_ok st p format_name system_prompt user_prompt h]
  refine ⟨rfl, ?_⟩
  unfold PromptLoader.get_prompt PromptLoader.load
  simp [dictSet_lookup_self]

/-- C5 (witness): the round-trip on an empty store at the name blog. -/
theorem put_get_roundtrip_witness :
    (PromptLoader.save_prompt ⟨none, .ok []⟩ "blog" "sysP" "userP" none).1 = .ok ()
    ∧ (PromptLoader.get_prompt
        (PromptLoader.save_prompt ⟨none, .ok []⟩ "blog" "sysP" "userP" none).2
        "blog").1 = .ok ⟨"sysP", "userP"⟩ :=
  put_get_roundtrip ⟨none, .ok []⟩ [] "blog" "sysP" "userP" rfl

/-! Section: claim C6 — delete semantics and the not-found message. -/

/-- C6 (confirmed): `delete_prompt` on a name absent from the store
fails with the not-found `KeyError`; after `save_prompt` of that name,
`delete_prompt` succeeds, and a subsequent `get_prompt` fails with a
not-found error whose message enumerates the currently known format
names (here the keys of the restored mapping `p`). -/
theorem delete_absent_then_put_delete_get (st : LoaderState) (p : PromptMap)
    (format_name system_prompt user_prompt : String)
    (hload : (PromptLoader.load st).1 = .ok p)
    (habs : p.lookup format_name = none) :
    (PromptLoader.delete_prompt st format_name none).1 =
        .error ("Формат \x27" ++ format_name ++ "\x27 не найден")
    ∧ (PromptLoader.delete_prompt
        (PromptLoader.save_prompt st format_name system_prompt user_prompt none).2
        format_name none).1 = .ok ()
    ∧ (PromptLoader.get_prompt
        (PromptLoader.delete_prompt
          (PromptLoader.save_prompt st format_name system_prompt user_prompt none).2
          format_name none).2
        format_name).1 =
      .error ("Формат \x27" ++ format_name ++ "\x27 не найден. Доступные форматы: "
        ++ String.intercalate (", ") (p.map Prod.fst)) := by
  have hsave := save_prompt_ok st p format_name system_prompt user_prompt hload
  have hset : dictSet p format_name ⟨system_prompt, user_prompt⟩
      = p ++ [(format_name, ⟨system_prompt, user_prompt⟩)] :=
    dictSet_of_absent p format_name _ habs
  have hdel : PromptLoader.delete_prompt
      ⟨none, .ok (dictSet p format_name ⟨system_prompt, user_prompt⟩)⟩
      format_name none = (.ok (), ⟨none, .ok p⟩) := by
    unfold PromptLoader.delete_prompt PromptLoader.load
    simp only [dictSet_lookup_self, Option.isSome_some, if_true]
    rw [hset, dictRemove_append_self p format_name _ habs]
  refine ⟨?_, ?_, ?_⟩
  · unfold PromptLoader.delete_prompt
    rw [load_ok_anatomy st p hload]
    simp [habs]
  · rw [hsave, hdel]
  · rw [hsave, hdel]
    unfold PromptLoader.get_prompt PromptLoader.load
    simp [habs]

/-- C6 (witness): the delete/put/delete/get chain on an empty store. -/
theorem delete_absent_then_put_delete_get_witness :
    (PromptLoader.delete_prompt ⟨none, .ok []⟩ "custom" none).1 =
        .error ("Формат \x27" ++ "custom" ++ "\x27 не найден")
    ∧ (PromptLoader.delete_prompt
        (PromptLoader.save_prompt ⟨none, .ok []⟩ "custom" "s1" "u1" none).2
        "custom" none).1 = .ok ()
    ∧ (PromptLoader.get_prompt
        (PromptLoader.delete_prompt
          (PromptLoader.save_prompt ⟨none, .ok []⟩ "custom" "s1" "u1" none).2
          "custom" none).2
        "custom").1 =
      .error ("Формат \x27" ++ "custom" ++ "\x27 не найден. Доступные форматы: "
        ++ String.intercalate (", ") (([] : PromptMap).map Prod.fst)) :=
  delete_absent_then_put_delete_get ⟨none, .ok []⟩ [] "custom" "s1" "u1" rfl rfl

/-! Section: claim C7 — unsupported provider kind. -/

/-- C7 (confirmed): for every configuration whose lower-cased provider
kind is not one of the supported kinds, `get_ai_provider` fails with the
`ValueError` naming the supported kinds, with no provider constructed
and an empty list of constructed network clients — no network resource
is touched. -/
theorem unsupported_provider_no_client (s : AISettings)
    (h : pyLower s.ai_provider ∉ (["openai", "openrouter", "ollama"] : List String)) :
    get_ai_provider s =
      (.error ("Неподдерживаемый провайдер: " ++ pyLower s.ai_provider
        ++ ". Доступные: openai, openrouter, ollama"), []) := by
  have h1 : ¬ pyLower s.ai_provider = "openai" := fun hh => h (by simp [hh])
  have h2 : ¬ pyLower s.ai_provider = "openrouter" := fun hh => h (by simp [hh])
  have h3 : ¬ pyLower s.ai_provider = "ollama" := fun hh => h (by simp [hh])
  unfold get_ai_provider
  rw [if_neg h1, if_neg h2, if_neg h3]

/-- A configuration naming an unsupported provider kind. -/
def exSettings : AISettings :=
  { ai_provider := "Anthropic"
    openai_api_key := none
    openai_base_url := "https://api.openai.com/v1"
    openai_model := "gpt-4o"
    openrouter_api_key := none
    openrouter_base_url := "https://openrouter.ai/api/v1"
    openrouter_model := "x-ai/grok-4.1-fast:free"
    ollama_base_url := "http://localhost:11434"
    ollama_model := "llama3.2" }

/-- C7 (witness): the theorem at the concrete unsupported kind. -/
theorem unsupported_provider_no_client_witness :
    get_ai_provider exSettings =
      (.error ("Неподдерживаемый провайдер: " ++ pyLower exSettings.ai_provider
        ++ ". Доступные: openai, openrouter, ollama"), []) :=
  unsupported_provider_no_client exSettings (by decide)

/-! Section: claim C8 — backend generate returns trimmed text or raises. -/

/-- C8 (amended): every backend variant's `generate` either returns a
whitespace-trimmed string or raises; the hosted chat-completion variants
fail on a missing content field (empty `choices`, or a `None` content),
but the local-inference variant substitutes the empty string for a
missing `response` field and returns it successfully rather than
failing. -/
theorem backend_trimmed_or_error :
    (∀ (resp : Except String OllamaResponse) (t : String),
        ollama_generate resp = .ok t → pyStripS t = t)
    ∧ (∀ (resp : Except String ChatCompletionResponse) (t : String),
        openai_generate resp = .ok t → pyStripS t = t)
    ∧ (∀ (resp : Except String ChatCompletionResponse) (t : String),
        openrouter_generate resp = .ok t → pyStripS t = t)
    ∧ (∀ r : ChatCompletionResponse, r.choices = [] →
        openai_generate (.ok r) = .error ("IndexError: list index out of range"))
    ∧ (∀ (r : ChatCompletionResponse) (rest : List ChatChoice),
        r.choices = ⟨none⟩ :: rest →
        openai_generate (.ok r) =
          .error ("AttributeError: \x27NoneType\x27 object has no attribute \x27strip\x27"))
    ∧ (∀ fields : List (String × String), fields.lookup ("response") = none →
        ollama_generate (.ok ⟨true, fields⟩) = .ok "") := by
  refine ⟨?_, ?_, ?_, ?_, ?_, ?_⟩
  · intro resp t h
    cases resp with
    | error e => simp [ollama_generate] at h
    | ok r =>
      cases hr : r.statusOk with
      | false => simp [ollama_generate, hr] at h
      | true =>
        simp [ollama_generate, hr] at h
        rw [← h]
        exact pyStripS_idem _
  · intro resp t h
    cases resp with
    | error e => simp [openai_generate] at h
    | ok r =>
      cases hch : r.choices.head? with
      | none => simp [openai_generate, hch] at h
      | some choice =>
        cases hco : choice.content with
        | none => simp [openai_generate, hch, hco] at h
        | some c =>
          simp [openai_generate, hch, hco] at h
          rw [← h]
          exact pyStripS_idem _
  · intro resp t h
    cases resp with
    | error e => simp [openrouter_generate] at h
    | ok r =>
      cases hch : r.choices.head? with
      | none => simp [openrouter_generate, hch] at h
      | some choice =>
        cases hco : choice.content with
        | none => simp [openrouter_generate, hch, hco] at h
        | some c =>
          simp [openrouter_generate, hch, hco] at h
          rw [← h]
          exact pyStripS_idem _
  · intro r hr
    simp [openai_generate, hr]
  · intro r rest hr
    simp [openai_generate, hr]
  · intro fields hf
    simp [ollama_generate, hf]
    rfl

/-- C8 (witness): the trimmed-output conjunct applied to a concrete
successful local-inference response with surrounding whitespace. -/
theorem backend_trimmed_or_error_witness :
    pyStripS ("Пост") = "Пост" :=
  backend_trimmed_or_error.1 (.ok ⟨true, [("response", "  Пост  ")]⟩) ("Пост") rfl

/-- C8 (counterexample): a well-formed, success-status local-inference
response whose JSON body lacks the `response` field makes `generate`
return the empty string successfully — it does not fail with a backend
error as the claim states. -/
theorem ollama_missing_field_succeeds :
    ollama_generate (.ok ⟨true, [("model", "llama3.2"), ("done", "true")]⟩)
      = .ok "" := by
  rfl

/-! Section: claim C9 — persistence failure during put. -/

/-- C9 (confirmed): when `save_prompt` fails while persisting the full
mapping, the write error is raised to the caller, the in-memory cache is
left invalidated (`None`), the on-disk state is unchanged, and the next
read reloads from the on-disk state instead of serving a stale cached
mapping. -/
theorem put_persist_failure (st : LoaderState) (p : PromptMap)
    (format_name system_prompt user_prompt e : String)
    (h : (PromptLoader.load st).1 = .ok p) :
    (PromptLoader.save_prompt st format_name system_prompt user_prompt (some e)).1 =
        .error e
    ∧ (PromptLoader.save_prompt st format_name system_prompt user_prompt (some e)).2.cache
        = none
    ∧ (PromptLoader.save_prompt st format_name system_prompt user_prompt (some e)).2.disk
        = st.disk
    ∧ (PromptLoader.load
        (PromptLoader.save_prompt st format_name system_prompt user_prompt (some e)).2).1
        = st.disk := by
  have hs : PromptLoader.save_prompt st format_name system_prompt user_prompt (some e)
      = (.error e, ⟨none, st.disk⟩) := by
    unfold PromptLoader.save_prompt
    rw [load_ok_anatomy st p h]
  rw [hs]
  refine ⟨rfl, rfl, rfl, ?_⟩
  unfold PromptLoader.load
  cases st.disk <;> rfl

/-- C9 (witness): a state whose cache and disk differ — after the failed
write the next read returns the on-disk mapping (empty), not the
previously cached entry. -/
theorem put_persist_failure_witness :
    (PromptLoader.save_prompt ⟨some [("a", ⟨"s", "u"⟩)], .ok []⟩ "blog" "s2" "u2"
        (some "OSError: disk full")).1 = .error ("OSError: disk full")
    ∧ (PromptLoader.save_prompt ⟨some [("a", ⟨"s", "u"⟩)], .ok []⟩ "blog" "s2" "u2"
        (some "OSError: disk full")).2.cache = none
    ∧ (PromptLoader.save_prompt ⟨some [("a", ⟨"s", "u"⟩)], .ok []⟩ "blog" "s2" "u2"
        (some "OSError: disk full")).2.disk = .ok []
    ∧ (PromptLoader.load
        (PromptLoader.save_prompt ⟨some [("a", ⟨"s", "u"⟩)], .ok []⟩ "blog" "s2" "u2"
          (some "OSError: disk full")).2).1 = .ok [] :=
  put_persist_failure ⟨some [("a", ⟨"s", "u"⟩)], .ok []⟩ [("a", ⟨"s", "u"⟩)]
    "blog" "s2" "u2" "OSError: disk full" rfl

/-! Section: claim C10 — telegram output when the first sentence segment
is over budget. -/

/-- C10 (amended): for every raw backend output whose newline-collapsed,
whitespace-trimmed form has a first sentence segment (first element of
the sentence split) longer than 300 characters, the telegram
post-processing returns the empty string; the condition is on the
collapsed and trimmed text that the code actually splits, not on the raw
text as the claim states. -/
theorem telegram_long_first_segment_empty (raw : List Char)
    (h : 300 < ((splitSent (pyStrip (collapseNL raw))).headI).length) :
    telegram_post_process raw = [] := by
  have hb := splitSent_headI_length (pyStrip (collapseNL raw))
  have hc : ¬ (pyStrip (collapseNL raw)).length ≤ 300 := by omega
  unfold telegram_post_process
  rw [if_neg hc]
  cases hsp : splitSent (pyStrip (collapseNL raw)) with
  | nil =>
    rw [hsp] at h
    have hnil : (([] : List (List Char)).headI) = ([] : List Char) := rfl
    rw [hnil] at h
    exact absurd h (by decide)
  | cons hd tl =>
    rw [hsp] at h
    simp only [List.headI] at h
    have hhd : ¬ (([] : List Char) ++ hd).length ≤ 300 := by
      simp only [List.nil_append]
      omega
    rw [greedyJoin, if_neg hhd]
    rfl

/-- C10 (witness): the theorem at a 350-character punctuation-free
input, whose collapsed/trimmed form is its own over-budget first
segment. -/
theorem telegram_long_first_segment_empty_witness :
    300 < ((splitSent (pyStrip (collapseNL (List.replicate 350 'b')))).headI).length
    ∧ telegram_post_process (List.replicate 350 'b') = [] :=
  ⟨by decide, telegram_long_first_segment_empty _ (by decide)⟩

/-- A raw output that is longer than 300 characters and whose raw first
sentence segment (the whole text — it has no sentence punctuation) is
longer than 300 characters, yet whose newline-collapsed, trimmed form is
only 200 characters. -/
def rawC10 : List Char := List.replicate 200 'a' ++ List.replicate 150 '\n'

/-- C10 (counterexample): on `rawC10` the claim's premises hold of the
raw text — length 350 > 300 and raw first sentence segment of length
350 > 300 — but the post-processing returns the 200 `a`s, not the empty
string: the claim's condition reads the raw text where the code reads
the collapsed, trimmed text. -/
theorem telegram_raw_segment_not_empty :
    300 < rawC10.length
    ∧ 300 < ((splitSent rawC10).headI).length
    ∧ telegram_post_process rawC10 = List.replicate 200 'a'
    ∧ telegram_post_process rawC10 ≠ [] := by
  refine ⟨by decide, by decide, by decide, by decide⟩
